import Mathlib

/-!
Shallow embedding of the Digilib download-authorization workflow and upload
classification pipeline (src/server.js, schema from src/setup-database.js).

Database rows are Lean structures, tables are lists, and each Express route
handler that the claims mention becomes a pure function from a database state
(plus request parameters and oracles for the external services) to an HTTP
response together with the updated database state.  JavaScript numbers are
modelled as rationals (ℚ); all values the claims touch are exactly
representable.  SQL timestamps (`NOW()`, `requested_at`) are modelled as
naturals supplied by the caller.
-/

/-- Row of the `pdfs` table (setup-database.js): id, title, cluster, url,
is_private, uploader, confidence.  `cluster` and `confidence` are JS numbers,
modelled as ℚ.  The `uploaded_at` timestamp is never read by the modelled
routes and is omitted. -/
structure Pdf where
  id : Nat
  title : String
  cluster : ℚ
  url : String
  is_private : Bool
  uploader : String
  confidence : ℚ
deriving Repr, DecidableEq

/-- Row of the `download_requests` table: id, pdf_id, username, status
(a VARCHAR with default 'pending'; the code never validates it, so it is an
arbitrary string), requested_at, responded_at (NULL until decided). -/
structure DownloadRequest where
  id : Nat
  pdf_id : Nat
  username : String
  status : String
  requested_at : Nat
  responded_at : Option Nat
deriving Repr, DecidableEq

/-- Row of the `download_history` table (pdf_id, username); the
`downloaded_at` timestamp is never read by the modelled routes. -/
structure DownloadHistoryRow where
  pdf_id : Nat
  username : String
deriving Repr, DecidableEq

/-- Row of the `favorites` table (username, pdf_id). -/
structure FavoriteRow where
  username : String
  pdf_id : Nat
deriving Repr, DecidableEq

/-- Row of the `recently_viewed` table (username, pdf_id), the view history. -/
structure ViewRow where
  username : String
  pdf_id : Nat
deriving Repr, DecidableEq

/-- Row of the `upload_history` table (title, course, uploaded_by); the
`course` column receives the JS `clusterIndex` number. -/
structure UploadHistoryRow where
  title : String
  course : ℚ
  uploaded_by : String
deriving Repr, DecidableEq

/-- The relational state: one list per table touched by the modelled routes
(`users` and `search_history` are not consulted by any claim). -/
structure DB where
  pdfs : List Pdf
  download_requests : List DownloadRequest
  download_history : List DownloadHistoryRow
  favorites : List FavoriteRow
  recently_viewed : List ViewRow
  upload_history : List UploadHistoryRow
deriving Repr, DecidableEq

/-- The ways the modelled handlers answer a request: `res.send` of a plain
text, `res.redirect`, a binary attachment with its Content-Disposition
filename / Content-Type / disposition, a rendered page, or the JSON
`{ status: ... }` body of the request-status route. -/
inductive Response where
  | send (text : String)
  | redirect (target : String)
  | fileAttachment (filename : String) (contentType : String) (disposition : String)
  | page (title : String)
  | jsonStatus (status : Option String)
deriving Repr, DecidableEq

/-- The gate subquery of GET /download/:id (server.js:453-458): does any
`download_requests` row for this exact (document, user) pair carry
status = 'accepted'?  (The SQL also joins `pdfs`; the join's effect — the
gate additionally needs the pdf row to exist — is kept in `downloadOp`.) -/
def acceptedRequestExists (db : DB) (docId : Nat) (user : String) : Bool :=
  db.download_requests.any fun dr =>
    dr.pdf_id == docId && dr.username == user && dr.status == "accepted"

/-- Lookup of the `pdfs` row joined by the gate query (`JOIN pdfs p ON
p.id = dr.pdf_id` with `dr.pdf_id = $1`). -/
def findPdf (db : DB) (docId : Nat) : Option Pdf :=
  db.pdfs.find? fun p => p.id == docId

/-- GET /download/:id (server.js:451-485).  The joined gate query returns a
row iff the pdf row exists and some request row for the pair is accepted; on
an empty result the handler sends 'Not allowed'.  Otherwise it first inserts
the `download_history` row (server.js:465-468), then fetches the binary from
object storage (`fetchOk` is the oracle for that fetch succeeding on the
stored url, server.js:471-472), answering 'Failed to fetch file' on a failed
fetch and the attachment `"<title>.pdf"` / application/pdf otherwise. -/
def downloadOp (db : DB) (docId : Nat) (user : String) (fetchOk : String → Bool) :
    Response × DB :=
  match findPdf db docId with
  | none => (.send "Not allowed", db)
  | some p =>
    if acceptedRequestExists db docId user then
      let db1 := { db with download_history := db.download_history ++ [⟨docId, user⟩] }
      if fetchOk p.url then
        (.fileAttachment (p.title ++ ".pdf") "application/pdf" "attachment", db1)
      else
        (.send "Failed to fetch file", db1)
    else
      (.send "Not allowed", db)

/-- POST /admin/download-action/:id (server.js:442-449).  Runs
`UPDATE download_requests SET status=$1, responded_at=NOW() WHERE id=$2`
with the unvalidated `action` string and then unconditionally redirects to
/admin/download-requests; `now` models `NOW()`. -/
def adminDownloadActionOp (db : DB) (reqId : Nat) (action : String) (now : Nat) :
    Response × DB :=
  ( .redirect "/admin/download-requests",
    { db with download_requests := db.download_requests.map fun dr =>
        if dr.id == reqId then { dr with status := action, responded_at := some now }
        else dr } )

/-- GET /request-status/:id (server.js:487-494): the filter of
`SELECT status FROM download_requests WHERE pdf_id=$1 AND username=$2`
followed by `ORDER BY requested_at DESC LIMIT 1`, modelled as the row of the
pair maximising `requested_at`. -/
def latestRequest (db : DB) (docId : Nat) (user : String) : Option DownloadRequest :=
  (db.download_requests.filter fun dr =>
    dr.pdf_id == docId && dr.username == user).argmax fun dr => dr.requested_at

/-- GET /request-status/:id response: `{ status: null }` when the pair has no
row, otherwise `{ status: <latest row's status> }`. -/
def requestStatusOp (db : DB) (docId : Nat) (user : String) : Response :=
  match latestRequest db docId user with
  | none => .jsonStatus none
  | some dr => .jsonStatus (some dr.status)

/-- POST /delete/:id (server.js:366-369) runs `DELETE FROM pdfs WHERE id=$1`;
the schema (setup-database.js) declares `ON DELETE CASCADE` foreign keys from
`favorites`, `recently_viewed`, `download_requests` and `download_history` to
`pdfs(id)`, so the delete also removes every row of those tables referencing
the deleted document.  `upload_history` has no foreign key and is untouched. -/
def deleteDocument (db : DB) (docId : Nat) : DB :=
  { pdfs := db.pdfs.filter fun p => p.id != docId
    download_requests := db.download_requests.filter fun dr => dr.pdf_id != docId
    download_history := db.download_history.filter fun h => h.pdf_id != docId
    favorites := db.favorites.filter fun f => f.pdf_id != docId
    recently_viewed := db.recently_viewed.filter fun v => v.pdf_id != docId
    upload_history := db.upload_history }

/-- The parsed JSON body the upload handler reads off the classifier
response (`mlResult`): the JS-truthiness of its `success` field (the claims
only involve plainly boolean values, so it is a Bool), and its `cluster` and
`confidence` fields, `none` when the field is `undefined`. -/
structure MlResult where
  success : Bool
  cluster : Option ℚ
  confidence : Option ℚ
deriving Repr, DecidableEq

/-- Outcome of the classifier call (server.js:262-280): a 2xx response with a
parsed JSON body, a non-2xx status (`!response.ok`), or a thrown error —
timeout, connection refused, or a body `response.json()` fails to parse. -/
inductive ClassifierOutcome where
  | ok (body : MlResult)
  | badStatus (status : Nat)
  | exn (message : String)
deriving Repr, DecidableEq

/-- The `mlResult` value after the classifier call: the parsed body on a 2xx
response; on a non-2xx status or a thrown error the handler substitutes
`{ success: false, cluster: 0, confidence: 0.78 }` (server.js:275,279). -/
def mlResultOf : ClassifierOutcome → MlResult
  | .ok body => body
  | .badStatus _ => ⟨false, some 0, some (39/50)⟩
  | .exn _ => ⟨false, some 0, some (39/50)⟩

/-- JS `x || d` on a possibly-undefined number: `undefined` and `0` are
falsy and give the default. -/
def jsOrQ (x : Option ℚ) (d : ℚ) : ℚ :=
  match x with
  | none => d
  | some v => if v = 0 then d else v

/-- Steps 5 of the upload handler (server.js:283-299): starting from the
defaults `(0, 0.5)`, take `(mlResult.cluster || 0, mlResult.confidence || 0.5)`
when `mlResult.success` is truthy, else `(mlResult.cluster,
mlResult.confidence || 0.5)` when `mlResult.cluster !== undefined`, else the
defaults. -/
def predictionOf (m : MlResult) : ℚ × ℚ :=
  if m.success then
    (jsOrQ m.cluster 0, jsOrQ m.confidence (1/2))
  else if m.cluster.isSome then
    (m.cluster.getD 0, jsOrQ m.confidence (1/2))
  else
    (0, 1/2)

/-- `clusterIndex = Math.max(0, Math.min(5, clusterIndex))` (server.js:302). -/
def clampCluster (x : ℚ) : ℚ := max 0 (min 5 x)

/-- `confidence = Math.max(0.1, Math.min(1.0, confidence))` (server.js:303). -/
def clampConfidence (x : ℚ) : ℚ := max (1/10) (min 1 x)

/-- `const clusterNames = [...]` (server.js:305). -/
def clusterNames : List String := ["BSCS", "BSED-MATH", "BSES", "BSHM", "BTLED-HE", "BEED"]

/-- `clusterNames[clusterIndex]` under JS array indexing: a string when the
index is a whole number hitting the array, `undefined` otherwise. -/
def clusterNameOf (q : ℚ) : Option String :=
  if q.den = 1 ∧ 0 ≤ q.num then clusterNames.get? q.num.toNat else none

/-- The SERIAL id the database would assign to a new `pdfs` row. -/
def freshPdfId (db : DB) : Nat :=
  (db.pdfs.foldl (fun a p => max a p.id) 0) + 1

/-- The JSON body of the upload response: `{success:false, message:'No file
selected'}`, the success body `{success:true, title, cluster, cluster_name,
confidence, api_used, ...}` (with `fallback:true` when produced by the catch
block's default-value save, server.js:346-355), or `{success:false,
message:'Upload failed completely'}`. -/
inductive UploadResult where
  | noFile
  | ok (title : String) (cluster : ℚ) (cluster_name : Option String)
      (confidence : ℚ) (api_used : Bool) (fallback : Bool)
  | failedCompletely
deriving Repr, DecidableEq

/-- The catch block of POST /upload (server.js:334-363): one more
`INSERT INTO pdfs` with default cluster 0 and confidence 0.5 (oracle
`fallbackInsertOk` for that insert succeeding); on success the response
reports `success:true` with `fallback:true`, and only when even this insert
fails does the handler answer `{success:false, message:'Upload failed
completely'}`. -/
def uploadCatch (db : DB) (hasFile : Bool) (filename url : String) (isPrivate : Bool)
    (user : String) (fallbackInsertOk : Bool) : UploadResult × DB :=
  let fname := if hasFile then filename else "unknown"
  let furl := if hasFile then url else ""
  if fallbackInsertOk then
    ( .ok fname 0 (some "BSCS") (1/2) false true,
      { db with pdfs := db.pdfs ++
          [⟨freshPdfId db, fname, 0, furl, isPrivate, user, 1/2⟩] } )
  else
    (.failedCompletely, db)

/-- POST /upload (server.js:235-364).  `hasFile`, `filename`, `url`,
`isPrivate`, `user` model `req.file?.path`, the parsed original filename, the
object-storage locator, the form's private flag and the session user;
`outcome` is the classifier call's outcome; `insertPdfOk` / `insertHistOk`
are oracles for the two database inserts (server.js:311-319) succeeding, and
`fallbackInsertOk` for the catch block's insert.  A failed insert throws into
the catch block (`uploadCatch`); when both inserts succeed the handler
answers the success JSON with `api_used = (mlResult.success === true)`. -/
def uploadOp (db : DB) (hasFile : Bool) (filename url : String) (isPrivate : Bool)
    (user : String) (outcome : ClassifierOutcome)
    (insertPdfOk insertHistOk fallbackInsertOk : Bool) : UploadResult × DB :=
  if !hasFile then
    (.noFile, db)
  else
    let m := mlResultOf outcome
    let pred := predictionOf m
    let clusterIndex := clampCluster pred.1
    let confidence := clampConfidence pred.2
    if insertPdfOk then
      let db1 := { db with pdfs := db.pdfs ++
          [⟨freshPdfId db, filename, clusterIndex, url, isPrivate, user, confidence⟩] }
      if insertHistOk then
        let db2 := { db1 with upload_history := db1.upload_history ++
            [⟨filename, clusterIndex, user⟩] }
        (.ok filename clusterIndex (clusterNameOf clusterIndex) confidence m.success false,
         db2)
      else
        uploadCatch db1 hasFile filename url isPrivate user fallbackInsertOk
    else
      uploadCatch db hasFile filename url isPrivate user fallbackInsertOk

/-- GET /view/:id (server.js:515-556): 'File not found' when no pdf row has
the id, 'Access denied' for a private document and a non-admin session, else
an insert into `recently_viewed` and the rendered page.  (The handler's
further read-only queries — similar documents, favorite flag, latest request
— feed the rendered view only and mutate nothing.) -/
def viewOp (db : DB) (docId : Nat) (user : String) (isAdminRole : Bool) :
    Response × DB :=
  match findPdf db docId with
  | none => (.send "File not found", db)
  | some file =>
    if file.is_private && !isAdminRole then
      (.send "Access denied", db)
    else
      ( .page file.title,
        { db with recently_viewed := db.recently_viewed ++ [⟨user, file.id⟩] } )

/-! ## Spec-side predicates and helper lemmas -/

/-- The spec's download-gate condition: at least one `download_requests` row
for the exact (user, document) pair has status 'accepted'. -/
def hasAcceptedRequest (db : DB) (docId : Nat) (user : String) : Prop :=
  ∃ dr ∈ db.download_requests,
    dr.pdf_id = docId ∧ dr.username = user ∧ dr.status = "accepted"

instance (db : DB) (docId : Nat) (user : String) :
    Decidable (hasAcceptedRequest db docId user) := by
  unfold hasAcceptedRequest; infer_instance

lemma acceptedRequestExists_iff (db : DB) (docId : Nat) (user : String) :
    acceptedRequestExists db docId user = true ↔ hasAcceptedRequest db docId user := by
  simp [acceptedRequestExists, hasAcceptedRequest, List.any_eq_true,
    Bool.and_eq_true, beq_iff_eq, and_assoc]

/-- Simp set that evaluates the upload pipeline's arithmetic. -/
lemma clampCluster_def (x : ℚ) : clampCluster x = max 0 (min 5 x) := rfl

lemma clampConfidence_def (x : ℚ) : clampConfidence x = max (1/10) (min 1 x) := rfl

lemma clampCluster_mem (x : ℚ) : 0 ≤ clampCluster x ∧ clampCluster x ≤ 5 := by
  constructor
  · exact le_max_left 0 (min 5 x)
  · exact max_le (by norm_num) (min_le_left 5 x)

lemma clampConfidence_mem (x : ℚ) :
    (1/10 : ℚ) ≤ clampConfidence x ∧ clampConfidence x ≤ 1 := by
  constructor
  · exact le_max_left (1/10) (min 1 x)
  · exact max_le (by norm_num) (min_le_left 1 x)

lemma clampCluster_of_mem {x : ℚ} (h0 : 0 ≤ x) (h5 : x ≤ 5) : clampCluster x = x := by
  rw [clampCluster_def, min_eq_right h5, max_eq_right h0]

lemma clampConfidence_of_mem {x : ℚ} (h0 : (1/10 : ℚ) ≤ x) (h1 : x ≤ 1) :
    clampConfidence x = x := by
  rw [clampConfidence_def, min_eq_right h1, max_eq_right h0]

/-- C5: the classification clamp (server.js:301-303) maps every (category,
confidence) pair into [0, 5] × [0.1, 1.0]; it is the identity on pairs
already within valid range; applying it twice equals applying it once; and
classifier output {category: 9, confidence: 1.4} is persisted as category 5
and confidence 1.0 (Scenario D, run through the whole upload pipeline). -/
theorem clamp_policy :
    (∀ c k : ℚ, 0 ≤ clampCluster c ∧ clampCluster c ≤ 5 ∧
        (1/10 : ℚ) ≤ clampConfidence k ∧ clampConfidence k ≤ 1)
    ∧ (∀ c k : ℚ, (0 ≤ c → c ≤ 5 → clampCluster c = c) ∧
        ((1/10 : ℚ) ≤ k → k ≤ 1 → clampConfidence k = k))
    ∧ (∀ c k : ℚ, clampCluster (clampCluster c) = clampCluster c ∧
        clampConfidence (clampConfidence k) = clampConfidence k)
    ∧ clampCluster 9 = 5 ∧ clampConfidence (7/5) = 1
    ∧ ∀ (db : DB) (f url user : String) (priv fb : Bool), ∃ row : Pdf,
        (uploadOp db true f url priv user (.ok ⟨true, some 9, some (7/5)⟩)
            true true fb).2.pdfs = db.pdfs ++ [row]
        ∧ row.cluster = 5 ∧ row.confidence = 1 := by
  refine ⟨fun c k => ⟨(clampCluster_mem c).1, (clampCluster_mem c).2,
      (clampConfidence_mem k).1, (clampConfidence_mem k).2⟩,
    fun c k => ⟨fun h0 h5 => clampCluster_of_mem h0 h5,
      fun h0 h1 => clampConfidence_of_mem h0 h1⟩,
    fun c k => ⟨clampCluster_of_mem (clampCluster_mem c).1 (clampCluster_mem c).2,
      clampConfidence_of_mem (clampConfidence_mem k).1 (clampConfidence_mem k).2⟩,
    by norm_num [clampCluster_def, min_def, max_def],
    by norm_num [clampConfidence_def, min_def, max_def],
    fun db f url user priv fb => ?_⟩
  refine ⟨⟨freshPdfId db, f, 5, url, priv, user, 1⟩, ?_, rfl, rfl⟩
  norm_num [uploadOp, mlResultOf, predictionOf, jsOrQ, clampCluster_def,
    clampConfidence_def, min_def, max_def]

/-- Witness for C5: the clamp leaves the in-range pair (3, 1/2) unchanged. -/
theorem clamp_policy_witness : clampCluster 3 = 3 ∧ clampConfidence (1/2) = 1/2 :=
  ⟨(clamp_policy.2.1 3 (1/2)).1 (by norm_num) (by norm_num),
   (clamp_policy.2.1 3 (1/2)).2 (by norm_num) (by norm_num)⟩

/-- C2: for every classifier outcome that is a failure (timeout, connection
refused or malformed JSON — `ClassifierOutcome.exn` — or any non-2xx status
— `ClassifierOutcome.badStatus`), the upload still answers the success JSON,
the persisted document row carries the default category 0 and the default
confidence 0.78 (both in valid range), and the response's `api_used` field is
false, marking the fallback path rather than a genuine prediction. -/
theorem fallback_guarantee (db : DB) (filename url user : String)
    (isPrivate fb : Bool) (outcome : ClassifierOutcome)
    (hfail : ∀ b, outcome ≠ ClassifierOutcome.ok b) :
    (uploadOp db true filename url isPrivate user outcome true true fb).1
      = .ok filename 0 (some "BSCS") (39/50) false false
    ∧ ∃ row : Pdf,
        (uploadOp db true filename url isPrivate user outcome true true fb).2.pdfs
          = db.pdfs ++ [row]
        ∧ row.cluster = 0 ∧ row.confidence = 39/50
        ∧ 0 ≤ row.cluster ∧ row.cluster ≤ 5
        ∧ (1/10 : ℚ) ≤ row.confidence ∧ row.confidence ≤ 1 := by
  have hml : mlResultOf outcome = ⟨false, some 0, some (39/50)⟩ := by
    cases outcome with
    | ok b => exact absurd rfl (hfail b)
    | badStatus s => rfl
    | exn m => rfl
  constructor
  · simp only [uploadOp, hml]
    norm_num [predictionOf, jsOrQ, clampCluster_def, clampConfidence_def,
      clusterNameOf, clusterNames, min_def, max_def]
  · refine ⟨⟨freshPdfId db, filename, 0, url, isPrivate, user, 39/50⟩, ?_,
      rfl, rfl, le_refl 0, by norm_num, by norm_num, by norm_num⟩
    simp only [uploadOp, hml]
    norm_num [predictionOf, jsOrQ, clampCluster_def, clampConfidence_def,
      min_def, max_def]

/-- Witness for C2 at a concrete failing outcome (connection refused) on an
empty database. -/
theorem fallback_guarantee_witness :
    (uploadOp ⟨[], [], [], [], [], []⟩ true "thesis" "loc" false "admin"
        (.exn "connection refused") true true false).1
      = .ok "thesis" 0 (some "BSCS") (39/50) false false :=
  (fallback_guarantee ⟨[], [], [], [], [], []⟩ "thesis" "loc" "admin" false false
    (.exn "connection refused") (fun _ h => ClassifierOutcome.noConfusion h)).1

/-- Counterexample to C3: a fixed input on which classification has
completed (a 2xx classifier response predicting cluster 2 at confidence 0.9)
and the Document-row insert fails, yet the upload response is the success
JSON (`success:true`, with `fallback:true` and the default values), not the
claimed 'upload failed' error: the catch block retries an insert with default
values and reports success when that retry succeeds (server.js:337-355). -/
theorem upload_db_failure_counterexample :
    (uploadOp ⟨[], [], [], [], [], []⟩ true "thesis" "loc" false "admin"
        (.ok ⟨true, some 2, some (9/10)⟩) false false true).1
      = .ok "thesis" 0 (some "BSCS") (1/2) false true := by
  norm_num [uploadOp, uploadCatch]

/-- C3 as amended: when a database write fails after classification, the
upload does not simply fail — the catch block performs one more Document
insert with default values.  The upload reports success iff both original
inserts succeed or the catch block's fallback insert succeeds, and reports
the generic failure ('Upload failed completely') iff the original write
sequence failed and the fallback insert also failed. -/
theorem upload_db_failure_semantics (db : DB) (filename url user : String)
    (isPrivate : Bool) (outcome : ClassifierOutcome)
    (insertPdfOk insertHistOk fallbackInsertOk : Bool) :
    ((∃ t c n cf au fb,
        (uploadOp db true filename url isPrivate user outcome
          insertPdfOk insertHistOk fallbackInsertOk).1 = .ok t c n cf au fb)
      ↔ ((insertPdfOk = true ∧ insertHistOk = true) ∨ fallbackInsertOk = true))
    ∧ ((uploadOp db true filename url isPrivate user outcome
          insertPdfOk insertHistOk fallbackInsertOk).1 = .failedCompletely
      ↔ (¬(insertPdfOk = true ∧ insertHistOk = true) ∧ fallbackInsertOk = false)) := by
  cases insertPdfOk <;> cases insertHistOk <;> cases fallbackInsertOk <;>
    simp [uploadOp, uploadCatch]

/-- Witness for C3's amended theorem: with the Document insert failing and
the fallback insert succeeding, some success JSON is returned. -/
theorem upload_db_failure_semantics_witness :
    ∃ t c n cf au fb,
      (uploadOp ⟨[], [], [], [], [], []⟩ true "thesis" "loc" false "admin"
        (.ok ⟨true, some 2, some (9/10)⟩) false false true).1 = .ok t c n cf au fb :=
  (upload_db_failure_semantics ⟨[], [], [], [], [], []⟩ "thesis" "loc" "admin" false
    (.ok ⟨true, some 2, some (9/10)⟩) false false true).1.mpr (Or.inr rfl)

lemma findPdf_eq_none_iff (db : DB) (docId : Nat) :
    findPdf db docId = none ↔ ∀ p ∈ db.pdfs, p.id ≠ docId := by
  simp [findPdf, List.find?_eq_none]

/-- C1: gate soundness.  Under the schema's foreign-key invariant (every
request row references an existing pdf row) and a working object storage, the
download operation returns the binary attachment iff at least one
DownloadRequest row for the exact (user, document) pair has status
'accepted', and answers 'Not allowed' iff no such row exists — regardless of
the document's visibility flag (never consulted) and of the status of the
latest request (any accepted row suffices). -/
theorem gate_soundness (db : DB) (docId : Nat) (user : String)
    (fetchOk : String → Bool)
    (hfk : ∀ dr ∈ db.download_requests, ∃ p ∈ db.pdfs, p.id = dr.pdf_id)
    (hfetch : ∀ u, fetchOk u = true) :
    ((downloadOp db docId user fetchOk).1 = .send "Not allowed"
      ↔ ¬ hasAcceptedRequest db docId user)
    ∧ ((∃ fn, (downloadOp db docId user fetchOk).1
        = .fileAttachment fn "application/pdf" "attachment")
      ↔ hasAcceptedRequest db docId user) := by
  cases hp : findPdf db docId with
  | none =>
    have hno : ¬ hasAcceptedRequest db docId user := by
      rintro ⟨dr, hmem, h1, _, _⟩
      obtain ⟨p, hpmem, hpid⟩ := hfk dr hmem
      exact (findPdf_eq_none_iff db docId).1 hp p hpmem (hpid.trans h1)
    simp [downloadOp, hp, hno]
  | some p =>
    cases hacc : acceptedRequestExists db docId user with
    | false =>
      have hno : ¬ hasAcceptedRequest db docId user := by
        rw [← acceptedRequestExists_iff, hacc]; simp
      simp [downloadOp, hp, hacc, hno]
    | true =>
      have hyes : hasAcceptedRequest db docId user :=
        (acceptedRequestExists_iff db docId user).1 hacc
      simp [downloadOp, hp, hacc, hfetch p.url, hyes]

/-- Concrete database for the C1 witness: document 42 with one rejected and
one later accepted request from user "u" (Scenario B). -/
def dbGateWitness : DB :=
  { pdfs := [⟨42, "thesis", 0, "loc42", false, "admin", 1⟩]
    download_requests := [⟨1, 42, "u", "rejected", 1, some 2⟩,
                          ⟨2, 42, "u", "accepted", 3, some 4⟩]
    download_history := []
    favorites := []
    recently_viewed := []
    upload_history := [] }

/-- Witness for C1: with an earlier rejected but a later accepted request,
the download succeeds with the binary attachment. -/
theorem gate_soundness_witness :
    ∃ fn, (downloadOp dbGateWitness 42 "u" (fun _ => true)).1
      = .fileAttachment fn "application/pdf" "attachment" :=
  (gate_soundness dbGateWitness 42 "u" (fun _ => true)
    (by decide) (fun _ => rfl)).2.mpr (by decide)

/-- Concrete database for the C6 counterexample: document 1 with an accepted
request from user "u" and an empty download history. -/
def dbOrderCounterexample : DB :=
  { pdfs := [⟨1, "t", 0, "loc1", false, "admin", 1⟩]
    download_requests := [⟨7, 1, "u", "accepted", 1, some 2⟩]
    download_history := []
    favorites := []
    recently_viewed := []
    upload_history := [] }

/-- Counterexample to C6: on a fixed state with an accepted grant and a
storage fetch that fails, a DownloadHistory record IS appended — the handler
inserts the history row (server.js:465-468) before fetching the binary
(server.js:471), the reverse of the claimed order, so the claimed consequence
"no DownloadHistory record is appended when the storage fetch fails" is
false. -/
theorem download_order_counterexample :
    (downloadOp dbOrderCounterexample 1 "u" (fun _ => false)).1
      = .send "Failed to fetch file"
    ∧ (downloadOp dbOrderCounterexample 1 "u" (fun _ => false)).2.download_history
      = [⟨1, "u"⟩] := by
  constructor <;> decide

/-- C6 as amended: for a pair with an accepted grant, the download operation
performs its steps in the order: append the DownloadHistory record first,
then fetch the binary via the document's storage locator, then return the
binary as '<title>.pdf' / application/pdf / attachment; the history record is
therefore appended even when the storage fetch fails. -/
theorem download_step_order (db : DB) (docId : Nat) (user : String)
    (fetchOk : String → Bool) (p : Pdf)
    (hp : findPdf db docId = some p)
    (hacc : acceptedRequestExists db docId user = true) :
    (downloadOp db docId user fetchOk).2.download_history
      = db.download_history ++ [⟨docId, user⟩]
    ∧ (fetchOk p.url = true →
        (downloadOp db docId user fetchOk).1
          = .fileAttachment (p.title ++ ".pdf") "application/pdf" "attachment")
    ∧ (fetchOk p.url = false →
        (downloadOp db docId user fetchOk).1 = .send "Failed to fetch file") := by
  cases hf : fetchOk p.url <;> simp [downloadOp, hp, hacc, hf]

/-- Witness for C6's amended theorem at a concrete state with a successful
fetch. -/
theorem download_step_order_witness :
    (downloadOp dbOrderCounterexample 1 "u" (fun _ => true)).2.download_history
      = dbOrderCounterexample.download_history ++ [⟨1, "u"⟩] :=
  (download_step_order dbOrderCounterexample 1 "u" (fun _ => true)
    ⟨1, "t", 0, "loc1", false, "admin", 1⟩ (by decide) (by decide)).1

/-- C7: the request-status query answers `{status: null}` iff no
DownloadRequest row exists for the (requester, document) pair, and when the
pair's rows have a unique most-recent `requested_at`, it answers that row's
status (ORDER BY requested_at DESC LIMIT 1). -/
theorem request_status_latest (db : DB) (docId : Nat) (user : String) :
    (requestStatusOp db docId user = .jsonStatus none
      ↔ ∀ dr ∈ db.download_requests, ¬(dr.pdf_id = docId ∧ dr.username = user))
    ∧ ∀ dr ∈ db.download_requests, dr.pdf_id = docId → dr.username = user →
        (∀ dr2 ∈ db.download_requests, dr2.pdf_id = docId → dr2.username = user →
          dr2 ≠ dr → dr2.requested_at < dr.requested_at) →
        requestStatusOp db docId user = .jsonStatus (some dr.status) := by
  constructor
  · have h1 : requestStatusOp db docId user = .jsonStatus none
        ↔ latestRequest db docId user = none := by
      unfold requestStatusOp
      cases h : latestRequest db docId user <;> simp
    rw [h1]
    unfold latestRequest
    rw [List.argmax_eq_none, List.filter_eq_nil_iff]
    simp [Bool.and_eq_true, beq_iff_eq, not_and]
  · intro dr hmem h1 h2 hdom
    have hfil : dr ∈ db.download_requests.filter
        (fun dr => dr.pdf_id == docId && dr.username == user) := by
      rw [List.mem_filter]
      exact ⟨hmem, by simp [h1, h2]⟩
    cases hm : (db.download_requests.filter
        (fun dr => dr.pdf_id == docId && dr.username == user)).argmax
        (fun dr => dr.requested_at) with
    | none =>
      rw [List.argmax_eq_none] at hm
      rw [hm] at hfil
      exact absurd hfil (List.not_mem_nil dr)
    | some m =>
      have hmm : m ∈ (db.download_requests.filter
          (fun dr => dr.pdf_id == docId && dr.username == user)).argmax
          (fun dr => dr.requested_at) := by
        rw [hm]; rfl
      have hmle : dr.requested_at ≤ m.requested_at :=
        List.le_of_mem_argmax hfil hmm
      have hmfil := List.argmax_mem hmm
      rw [List.mem_filter] at hmfil
      obtain ⟨hmmem, hmq⟩ := hmfil
      simp only [Bool.and_eq_true, beq_iff_eq] at hmq
      by_cases hmd : m = dr
      · subst hmd
        unfold requestStatusOp latestRequest
        rw [hm]
      · exact absurd hmle (not_le.2 (hdom m hmmem hmq.1 hmq.2 hmd))

/-- Concrete database for the C7 witness: document 42 with a rejected request
at time 1 and a newer accepted request at time 3 from the same user. -/
def dbStatusWitness : DB :=
  { pdfs := [⟨42, "thesis", 0, "loc42", false, "admin", 1⟩]
    download_requests := [⟨1, 42, "u", "rejected", 1, some 2⟩,
                          ⟨2, 42, "u", "accepted", 3, some 4⟩]
    download_history := []
    favorites := []
    recently_viewed := []
    upload_history := [] }

/-- Witness for C7: the query answers the newer row's status 'accepted'. -/
theorem request_status_latest_witness :
    requestStatusOp dbStatusWitness 42 "u" = .jsonStatus (some "accepted") :=
  (request_status_latest dbStatusWitness 42 "u").2
    ⟨2, 42, "u", "accepted", 3, some 4⟩ (by decide) rfl rfl (by decide)

/-- Concrete database for the C4 counterexample: one pending request id 7. -/
def dbStatusFlip : DB :=
  { pdfs := [⟨42, "thesis", 0, "loc42", false, "admin", 1⟩]
    download_requests := [⟨7, 42, "u", "pending", 1, none⟩]
    download_history := []
    favorites := []
    recently_viewed := []
    upload_history := [] }

/-- Counterexample to C4: the admin-decision route performs an unconditional
UPDATE (server.js:444-447), so on a concrete request a decision 'accepted'
followed by a decision 'rejected' flips the status from accepted to
rejected, and a further decision with the string 'pending' reverts it to
pending — the claimed forward-only transition does not hold. -/
theorem status_monotonic_counterexample :
    ((adminDownloadActionOp dbStatusFlip 7 "accepted" 10).2.download_requests
      = [⟨7, 42, "u", "accepted", 1, some 10⟩])
    ∧ ((adminDownloadActionOp (adminDownloadActionOp dbStatusFlip 7 "accepted" 10).2
          7 "rejected" 11).2.download_requests
      = [⟨7, 42, "u", "rejected", 1, some 11⟩])
    ∧ ((adminDownloadActionOp (adminDownloadActionOp
          (adminDownloadActionOp dbStatusFlip 7 "accepted" 10).2
          7 "rejected" 11).2 7 "pending" 12).2.download_requests
      = [⟨7, 42, "u", "pending", 1, some 12⟩]) := by
  refine ⟨?_, ?_, ?_⟩ <;> decide

/-- C4 as amended: an admin decision overwrites the request's status with the
supplied action string unconditionally and stamps `responded_at` with the
decision time; when two decisions target the same request the second one
wins, whatever the two labels are — so the status is last-write-wins rather
than forward-only, and monotonicity holds only when each request receives at
most one decision with a terminal label. -/
theorem admin_action_last_write_wins (db : DB) (reqId : Nat) (a : String)
    (t1 : Nat) (b : String) (t2 : Nat) :
    ∀ dr ∈ (adminDownloadActionOp (adminDownloadActionOp db reqId a t1).2
        reqId b t2).2.download_requests,
      dr.id = reqId → dr.status = b ∧ dr.responded_at = some t2 := by
  intro dr hmem hid
  simp only [adminDownloadActionOp, List.map_map, List.mem_map] at hmem
  obtain ⟨dr0, _, hdr⟩ := hmem
  by_cases h0 : dr0.id = reqId
  · simp [Function.comp, h0] at hdr
    subst hdr
    exact ⟨rfl, rfl⟩
  · simp [Function.comp, h0] at hdr
    subst hdr
    exact absurd hid h0

/-- Witness for C4's amended theorem: after 'accepted' then 'rejected' on
request 7, the surviving row's status is 'rejected' with the second
decision's timestamp. -/
theorem admin_action_last_write_wins_witness :
    (⟨7, 42, "u", "rejected", 1, some 11⟩ : DownloadRequest).status = "rejected"
    ∧ (⟨7, 42, "u", "rejected", 1, some 11⟩ : DownloadRequest).responded_at = some 11 :=
  admin_action_last_write_wins dbStatusFlip 7 "accepted" 10 "rejected" 11
    ⟨7, 42, "u", "rejected", 1, some 11⟩ (by decide) rfl

/-- Concrete database for the C8 counterexample: it has no download_requests
row with id 99. -/
def dbNotFound : DB :=
  { pdfs := [⟨42, "thesis", 0, "loc42", false, "admin", 1⟩]
    download_requests := [⟨7, 42, "u", "pending", 1, none⟩]
    download_history := []
    favorites := []
    recently_viewed := []
    upload_history := [] }

/-- Counterexample to C8: an admin decision on the nonexistent request id 99
mutates nothing (the UPDATE matches no row) but returns an unconditional
redirect to the request list (server.js:448), never any user-visible plain
not-found message — the claimed not-found message does not exist on this
operation. -/
theorem notfound_counterexample :
    adminDownloadActionOp dbNotFound 99 "accepted" 5
      = (.redirect "/admin/download-requests", dbNotFound)
    ∧ ∀ s, (Response.redirect "/admin/download-requests") ≠ .send s :=
  ⟨by decide, fun _ h => Response.noConfusion h⟩

/-- C8 as amended: operations invoked with an absent identifier perform no
mutation of any stored row, but only the view operation answers a plain
not-found message ('File not found'); the download operation answers 'Not
allowed' (not distinguishing a missing document from a missing grant), and
the admin decision on a nonexistent request id answers no message at all,
just its usual redirect. -/
theorem notfound_behaviour (db : DB) (docId reqId : Nat) (user action : String)
    (now : Nat) (fetchOk : String → Bool) (isAdminRole : Bool) :
    ((∀ dr ∈ db.download_requests, dr.id ≠ reqId) →
      adminDownloadActionOp db reqId action now
        = (.redirect "/admin/download-requests", db))
    ∧ ((∀ p ∈ db.pdfs, p.id ≠ docId) →
      downloadOp db docId user fetchOk = (.send "Not allowed", db))
    ∧ ((∀ p ∈ db.pdfs, p.id ≠ docId) →
      viewOp db docId user isAdminRole = (.send "File not found", db)) := by
  refine ⟨fun h => ?_, fun h => ?_, fun h => ?_⟩
  · have hmap : (db.download_requests.map fun dr =>
        if dr.id == reqId then { dr with status := action, responded_at := some now }
        else dr) = db.download_requests := by
      conv_rhs => rw [← List.map_id db.download_requests]
      apply List.map_congr_left
      intro a ha
      simp [h a ha]
    unfold adminDownloadActionOp
    rw [hmap]
  · have hf : findPdf db docId = none := (findPdf_eq_none_iff db docId).2 h
    simp [downloadOp, hf]
  · have hf : findPdf db docId = none := (findPdf_eq_none_iff db docId).2 h
    simp [viewOp, hf]

/-- Witness for C8's amended theorem at the concrete database above: absent
request id 99 and absent document id 99. -/
theorem notfound_behaviour_witness :
    adminDownloadActionOp dbNotFound 99 "accepted" 5
      = (.redirect "/admin/download-requests", dbNotFound)
    ∧ downloadOp dbNotFound 99 "u" (fun _ => true) = (.send "Not allowed", dbNotFound)
    ∧ viewOp dbNotFound 99 "u" false = (.send "File not found", dbNotFound) :=
  ⟨(notfound_behaviour dbNotFound 99 99 "u" "accepted" 5 (fun _ => true) false).1
      (by decide),
   (notfound_behaviour dbNotFound 99 99 "u" "accepted" 5 (fun _ => true) false).2.1
      (by decide),
   (notfound_behaviour dbNotFound 99 99 "u" "accepted" 5 (fun _ => true) false).2.2
      (by decide)⟩

/-- C9: deleting a document removes (by the schema's ON DELETE CASCADE)
every DownloadRequest, Favorite, DownloadHistory and ViewHistory
(recently_viewed) row referencing it, as well as the pdf row itself; the
download gate subsequently answers 'Not allowed' for that document id for
every user. -/
theorem cascade_completeness (db : DB) (docId : Nat) :
    (∀ dr ∈ (deleteDocument db docId).download_requests, dr.pdf_id ≠ docId)
    ∧ (∀ f ∈ (deleteDocument db docId).favorites, f.pdf_id ≠ docId)
    ∧ (∀ h ∈ (deleteDocument db docId).download_history, h.pdf_id ≠ docId)
    ∧ (∀ v ∈ (deleteDocument db docId).recently_viewed, v.pdf_id ≠ docId)
    ∧ (∀ p ∈ (deleteDocument db docId).pdfs, p.id ≠ docId)
    ∧ ∀ (user : String) (fetchOk : String → Bool),
        (downloadOp (deleteDocument db docId) docId user fetchOk).1
          = .send "Not allowed" := by
  have hpdfs : ∀ p ∈ (deleteDocument db docId).pdfs, p.id ≠ docId := by
    intro p hp
    rw [deleteDocument, List.mem_filter] at hp
    simpa using hp.2
  refine ⟨?_, ?_, ?_, ?_, hpdfs, ?_⟩
  · intro dr hdr
    rw [deleteDocument, List.mem_filter] at hdr
    simpa using hdr.2
  · intro f hf
    rw [deleteDocument, List.mem_filter] at hf
    simpa using hf.2
  · intro h hh
    rw [deleteDocument, List.mem_filter] at hh
    simpa using hh.2
  · intro v hv
    rw [deleteDocument, List.mem_filter] at hv
    simpa using hv.2
  · intro user fetchOk
    have hf : findPdf (deleteDocument db docId) docId = none :=
      (findPdf_eq_none_iff _ docId).2 hpdfs
    simp [downloadOp, hf]

/-- C10: frame property of an admin decision on request id N — every table
other than download_requests is unchanged, the download_requests table keeps
its length and order, every row keeps its id, pdf_id, username and
requested_at, rows whose id differs from N are entirely unchanged, and the
row with id N has its status set to the action and its responded_at set to
the decision time. -/
theorem admin_action_frame (db : DB) (reqId : Nat) (action : String) (now : Nat) :
    ((adminDownloadActionOp db reqId action now).2.pdfs = db.pdfs)
    ∧ ((adminDownloadActionOp db reqId action now).2.download_history
        = db.download_history)
    ∧ ((adminDownloadActionOp db reqId action now).2.favorites = db.favorites)
    ∧ ((adminDownloadActionOp db reqId action now).2.recently_viewed
        = db.recently_viewed)
    ∧ ((adminDownloadActionOp db reqId action now).2.upload_history
        = db.upload_history)
    ∧ ((adminDownloadActionOp db reqId action now).2.download_requests.length
        = db.download_requests.length)
    ∧ ∀ (i : Nat) (h1 : i < db.download_requests.length)
        (h2 : i < (adminDownloadActionOp db reqId action now).2.download_requests.length),
        (((adminDownloadActionOp db reqId action now).2.download_requests.get ⟨i, h2⟩).id
            = (db.download_requests.get ⟨i, h1⟩).id
          ∧ ((adminDownloadActionOp db reqId action now).2.download_requests.get ⟨i, h2⟩).pdf_id
            = (db.download_requests.get ⟨i, h1⟩).pdf_id
          ∧ ((adminDownloadActionOp db reqId action now).2.download_requests.get ⟨i, h2⟩).username
            = (db.download_requests.get ⟨i, h1⟩).username
          ∧ ((adminDownloadActionOp db reqId action now).2.download_requests.get ⟨i, h2⟩).requested_at
            = (db.download_requests.get ⟨i, h1⟩).requested_at)
        ∧ ((db.download_requests.get ⟨i, h1⟩).id ≠ reqId →
            (adminDownloadActionOp db reqId action now).2.download_requests.get ⟨i, h2⟩
              = db.download_requests.get ⟨i, h1⟩)
        ∧ ((db.download_requests.get ⟨i, h1⟩).id = reqId →
            ((adminDownloadActionOp db reqId action now).2.download_requests.get ⟨i, h2⟩).status
              = action
            ∧ ((adminDownloadActionOp db reqId action now).2.download_requests.get ⟨i, h2⟩).responded_at
              = some now) := by
  refine ⟨rfl, rfl, rfl, rfl, rfl, by simp [adminDownloadActionOp], ?_⟩
  intro i h1 h2
  have hget : (adminDownloadActionOp db reqId action now).2.download_requests.get ⟨i, h2⟩
      = (fun dr => if dr.id == reqId
          then { dr with status := action, responded_at := some now } else dr)
        (db.download_requests.get ⟨i, h1⟩) := by
    simp [adminDownloadActionOp, List.get_eq_getElem, List.getElem_map]
  rw [hget]
  by_cases hid : (db.download_requests.get ⟨i, h1⟩).id = reqId
  · simp only [List.get_eq_getElem] at hid
    simp [hid]
  · simp only [List.get_eq_getElem] at hid
    simp [hid]

/-- Witness for C10 at the concrete database of the C8 section, request 7,
index 0. -/
theorem admin_action_frame_witness :
    ((adminDownloadActionOp dbNotFound 7 "accepted" 5).2.download_requests.get
        ⟨0, by decide⟩).username
      = (dbNotFound.download_requests.get ⟨0, by decide⟩).username
    ∧ ((adminDownloadActionOp dbNotFound 7 "accepted" 5).2.download_requests.get
        ⟨0, by decide⟩).status = "accepted" :=
  ⟨(((admin_action_frame dbNotFound 7 "accepted" 5).2.2.2.2.2.2 0 (by decide)
      (by decide)).1).2.2.1,
   (((admin_action_frame dbNotFound 7 "accepted" 5).2.2.2.2.2.2 0 (by decide)
      (by decide)).2.2 (by decide)).1⟩

/-- Concrete database for the C9 witness: document 42 with an accepted
request, a favorite, a history row and a view row referencing it. -/
def dbCascadeWitness : DB :=
  { pdfs := [⟨42, "thesis", 0, "loc42", false, "admin", 1⟩]
    download_requests := [⟨1, 42, "u", "accepted", 1, some 2⟩]
    download_history := [⟨42, "u"⟩]
    favorites := [⟨"u", 42⟩]
    recently_viewed := [⟨"u", 42⟩]
    upload_history := [] }

/-- Witness for C9 at the concrete database: after deleting document 42 the
gate answers 'Not allowed' for user "u", and the surviving accepted-request
row set no longer references 42. -/
theorem cascade_completeness_witness :
    (downloadOp (deleteDocument dbCascadeWitness 42) 42 "u" (fun _ => true)).1
      = .send "Not allowed" :=
  (cascade_completeness dbCascadeWitness 42).2.2.2.2.2 "u" (fun _ => true)
